import Mathlib

/-!
# GSB-Selenium: verification of the scheduling / session-orchestration core

A shallow embedding of the orchestration core of the GSB-Selenium repository:

* `gsb_selenium/utils/timing.py` — `human_sleep`, `TimingPattern`;
* `gsb_selenium/utils/stealth_driver.py` — user-agent (fingerprint) selection
  and the profile/driver life-cycle of `StealthDriver`;
* `gsb_selenium/utils/profile_manager.py` — `ChromeProfileManager.cleanup_profile`;
* `gsb_selenium/core/config.py` — `GSBConfig.proxy_string` session tokens;
* `gsb_selenium/core/gsb.py` — `GoogleSearchBot.run_search_session` and its
  helper stages (`_perform_search`, `_detect_captcha`, `_solve_captcha`,
  `_find_and_click_target`);
* `gsb_selenium/utils/search_manager.py` — `should_click_target`.

Randomness is embedded by passing each draw explicitly: a `Nat` reduced into
the needed range for `random.randint` / `random.choice`, and a rational unit
draw `u` with `0 ≤ u ≤ 1` for `random.random` / `random.uniform`.  Python
exceptions are embedded as `Except` values, distinguishing ordinary
`Exception`s (caught by the pervasive `except Exception` handlers) from
`KeyboardInterrupt`-style base exceptions (which those handlers let through).
-/

namespace GSB

/-- Kinds of Python exceptions relevant to the control flow: `error` is an
ordinary `Exception` (caught by `except Exception`), `interrupt` is a
`KeyboardInterrupt`-style `BaseException` (not caught by those handlers). -/
inductive ExcKind where
  | error : ExcKind
  | interrupt : ExcKind
deriving DecidableEq, Repr

/-! ## Timing (`gsb_selenium/utils/timing.py`) -/

/-- The duration drawn by `random.uniform(min_seconds, max_seconds)` inside
`human_sleep`, with the unit draw `u` made explicit: Python computes
`a + (b - a) * u` with `u` drawn from `[0, 1)`. -/
def humanSleepDuration (mn mx u : ℚ) : ℚ := mn + (mx - mn) * u

/-- The activity names registered in the dictionary hardcoded by
`TimingPattern.__init__`. -/
def registeredActivities : List String :=
  ["search", "navigation", "click", "typing", "page_load", "captcha_solve"]

/-- `TimingPattern.get_pattern` / the dictionary lookup in
`TimingPattern.wait_for`: the `(min, max)` bound registered for the activity,
defaulting to `(1.0, 2.0)` for unregistered names.  Values are the ones
hardcoded in `TimingPattern.__init__` (`0.5 = 1/2`, `0.05 = 1/20`, …). -/
def getPattern (activity : String) : ℚ × ℚ :=
  if activity = "search" then (1, 3)
  else if activity = "navigation" then (2, 4)
  else if activity = "click" then (1/2, 3/2)
  else if activity = "typing" then (1/20, 3/20)
  else if activity = "page_load" then (3, 7)
  else if activity = "captcha_solve" then (15, 30)
  else (1, 2)

/-- `TimingPattern.wait_for`: the duration slept for an activity, i.e.
`human_sleep` applied to the applicable bound. -/
def waitForDuration (activity : String) (u : ℚ) : ℚ :=
  humanSleepDuration (getPattern activity).1 (getPattern activity).2 u

/-- A `TimingPattern` with its activity table taken as data (the source
hardcodes one table; `samplePattern timingPatternsTable` is that instance):
sampling looks the activity up and falls back to the `(1, 2)` default. -/
def samplePattern (patterns : List (String × ℚ × ℚ)) (activity : String) (u : ℚ) : ℚ :=
  match List.lookup activity patterns with
  | some p => humanSleepDuration p.1 p.2 u
  | none => humanSleepDuration 1 2 u

/-- The table hardcoded in `TimingPattern.__init__`. -/
def timingPatternsTable : List (String × ℚ × ℚ) :=
  [("search", 1, 3), ("navigation", 2, 4), ("click", 1/2, 3/2),
   ("typing", 1/20, 3/20), ("page_load", 3, 7), ("captcha_solve", 15, 30)]

/-! ## Identity rotation (`stealth_driver.py`, `config.py`) -/

/-- The user-agent catalog returned by `GSBConfig.get_user_agents`. -/
def userAgents : List String :=
  ["Mozilla/5.0 (Windows NT 10.0; Win64; x64) AppleWebKit/537.36 (KHTML, like Gecko) Chrome/122.0.0.0 Safari/537.36",
   "Mozilla/5.0 (Windows NT 10.0; Win64; x64) AppleWebKit/537.36 (KHTML, like Gecko) Chrome/121.0.0.0 Safari/537.36",
   "Mozilla/5.0 (Windows NT 10.0; Win64; x64) AppleWebKit/537.36 (KHTML, like Gecko) Chrome/120.0.0.0 Safari/537.36",
   "Mozilla/5.0 (Windows NT 10.0; Win64; x64) AppleWebKit/537.36 (KHTML, like Gecko) Chrome/119.0.0.0 Safari/537.36",
   "Mozilla/5.0 (Windows NT 10.0; Win64; x64) AppleWebKit/537.36 (KHTML, like Gecko) Chrome/118.0.0.0 Safari/537.36",
   "Mozilla/5.0 (Windows NT 10.0; Win64; x64) AppleWebKit/537.36 (KHTML, like Gecko) Chrome/117.0.0.0 Safari/537.36",
   "Mozilla/5.0 (Windows NT 10.0; Win64; x64) AppleWebKit/537.36 (KHTML, like Gecko) Chrome/116.0.0.0 Safari/537.36",
   "Mozilla/5.0 (Windows NT 10.0; Win64; x64) AppleWebKit/537.36 (KHTML, like Gecko) Chrome/115.0.0.0 Safari/537.36",
   "Mozilla/5.0 (Windows NT 10.0; Win64; x64) AppleWebKit/537.36 (KHTML, like Gecko) Chrome/114.0.0.0 Safari/537.36",
   "Mozilla/5.0 (Windows NT 10.0; Win64; x64) AppleWebKit/537.36 (KHTML, like Gecko) Chrome/113.0.0.0 Safari/537.36",
   "Mozilla/5.0 (Windows NT 10.0; Win64; x64) AppleWebKit/537.36 (KHTML, like Gecko) Chrome/112.0.0.0 Safari/537.36",
   "Mozilla/5.0 (Windows NT 10.0; Win64; x64) AppleWebKit/537.36 (KHTML, like Gecko) Chrome/111.0.0.0 Safari/537.36",
   "Mozilla/5.0 (Windows NT 10.0; Win64; x64) AppleWebKit/537.36 (KHTML, like Gecko) Chrome/110.0.0.0 Safari/537.36",
   "Mozilla/5.0 (Windows NT 10.0; Win64; x64) AppleWebKit/537.36 (KHTML, like Gecko) Chrome/109.0.0.0 Safari/537.36",
   "Mozilla/5.0 (Windows NT 10.0; Win64; x64) AppleWebKit/537.36 (KHTML, like Gecko) Chrome/108.0.0.0 Safari/537.36"]

/-- `random.choice(seq)`: the element at a uniformly drawn index, with the
draw embedded as an arbitrary natural reduced modulo the length. -/
def randomChoice (l : List String) (r : Nat) : String := l.getD (r % l.length) ""

/-- The fingerprint (user-agent) selection in
`StealthDriver._create_chrome_options`: `random.choice(user_agents)`.  The
source consults no record of any previously selected user agent; the `prev`
argument exists only so that the rotation contract can be stated, and is
ignored exactly as the source ignores history. -/
def nextFingerprint (_prev : Option String) (r : Nat) : String :=
  randomChoice userAgents r

/-- `random.randint(a, b)` (both endpoints included), the draw embedded as an
arbitrary natural reduced into the closed range. -/
def randint (a b r : Nat) : Nat := a + r % (b - a + 1)

/-- The proxy session token drawn by `GSBConfig.proxy_string`:
`random.randint(606150694, 606250693)`. -/
def sessionToken (r : Nat) : Nat := randint 606150694 606250693 r

/-- `GSBConfig.proxy_string`: the hardcoded Oxylabs proxy string with the
freshly drawn session token spliced in. -/
def proxyString (r : Nat) : String :=
  "https://customer-nivos_qR24w-cc-us-sessid-" ++ toString (sessionToken r) ++
    "-sesstime-10:Niv220niv220_@pr.oxylabs.io:7777"

/-- Successive accesses of `proxy_string` each perform a fresh draw: token `i`
of a run is a function of the fresh draw `s i` alone. -/
def sessionTokenStream (s : Nat → Nat) (i : Nat) : Nat := sessionToken (s i)

/-! ## The search session (`gsb_selenium/core/gsb.py`)

One iteration of the loop in `GoogleSearchBot.run_search_session` is a
pipeline `_perform_search` → `_detect_captcha` → `_solve_captcha` →
`_find_and_click_target`, run inside `with self.stealth_driver as driver:`
and guarded by a per-iteration `try … except Exception`. -/

/-- An `except Exception` handler around a boolean-returning body: ordinary
errors are converted to the fallback value, interrupts keep propagating. -/
def catchExc (body : Except ExcKind Bool) (fallback : Bool) : Except ExcKind Bool :=
  match body with
  | .error .error => .ok fallback
  | x => x

/-- The CSS selectors probed by `GoogleSearchBot._detect_captcha` when no
solver collaborator is configured. -/
def captchaSelectors : List String :=
  ["div.g-recaptcha", "iframe[src*=\x27recaptcha\x27]", ".recaptcha-checkbox", "#recaptcha"]

/-- The probe loop of `_detect_captcha` without a solver: selectors are tried
in order against `driver.find_elements`; the first selector that finds at
least one element reports a captcha, and a raised exception aborts the loop. -/
def detectLoop (find : String → Except ExcKind Nat) :
    List String → Except ExcKind Bool
  | [] => .ok false
  | s :: rest =>
    match find s with
    | .error k => .error k
    | .ok n => if 0 < n then .ok true else detectLoop find rest

/-- Observable collaborator behavior during one search iteration. -/
structure SessionEnv where
  /-- Result of driver construction in `StealthDriver.__enter__`
  (`create_driver`), which runs after the Chrome profile has been created:
  `none` means the driver came up, `some k` means `wire_webdriver.Chrome`
  raised. -/
  enterExc : Option ExcKind
  /-- Raw result of the `_perform_search` body, before its own
  `except Exception` handler turns ordinary errors into `False`. -/
  searchBody : Except ExcKind Bool
  /-- `driver.find_elements(By.CSS_SELECTOR, selector)` during captcha
  detection: the number of elements found, or a raised exception. -/
  findCount : String → Except ExcKind Nat
  /-- The solver collaborator, present exactly when a 2Captcha key was
  configured: raw results of the `detect_recaptcha_v2` and
  `solve_recaptcha_v2` bodies (each of which catches its own `Exception`s). -/
  solver : Option (Except ExcKind Bool × Except ExcKind Bool)
  /-- The `href` attributes of the result links scanned by
  `_find_and_click_target`, in displayed order (`none` where reading the link
  raises and the per-link handler continues). -/
  links : List (Option String)
  /-- Unit draws available to `should_click_target` (`random.random()`). -/
  clickDraws : List ℚ

/-- The body of `_detect_captcha` before its own `except Exception` handler:
the solver collaborator when configured, else the selector probe loop. -/
def detectBody (env : SessionEnv) : Except ExcKind Bool :=
  match env.solver with
  | some sv => catchExc sv.1 false
  | none => detectLoop env.findCount captchaSelectors

/-- `GoogleSearchBot._detect_captcha`: the detection body with any ordinary
error mapped to `False` by the surrounding `except Exception`. -/
def detectCaptcha (env : SessionEnv) : Except ExcKind Bool :=
  catchExc (detectBody env) false

/-- `GoogleSearchBot._solve_captcha`: `False` when no solver is configured;
otherwise the solver result, with ordinary errors mapped to `False` both by
`solve_recaptcha_v2` itself and by `_solve_captcha`'s own handler. -/
def solveCaptcha (env : SessionEnv) : Except ExcKind Bool :=
  match env.solver with
  | none => .ok false
  | some sv => catchExc (catchExc sv.2 false) false

/-! ### Target clicking (`_find_and_click_target`, `should_click_target`) -/

/-- `should_click_target(config)`: `random.random() < config.click_probability`. -/
def shouldClickTarget (clickProbability u : ℚ) : Bool := decide (u < clickProbability)

/-- Prefix test on character lists (needle first). -/
def hasPrefixChars : List Char → List Char → Bool
  | [], _ => true
  | _ :: _, [] => false
  | a :: as, b :: bs => a == b && hasPrefixChars as bs

/-- Substring test on character lists, the model of Python's
`needle in hay` on strings. -/
def hasSubstringChars (needle : List Char) : List Char → Bool
  | [] => hasPrefixChars needle []
  | c :: t => hasPrefixChars needle (c :: t) || hasSubstringChars needle t

/-- Characters of a string lowered, the model of `str.lower()`. -/
def lowerChars (s : String) : List Char := s.toList.map Char.toLower

/-- The match test of `_find_and_click_target`:
`self.config.target_website.lower() in href.lower()`. -/
def urlContainsTarget (target href : String) : Bool :=
  hasSubstringChars (lowerChars target) (lowerChars href)

/-- The scan over result links in `_find_and_click_target`: candidates in
displayed order; a link is clicked when its `href` is truthy and contains the
target case-insensitively; links whose `href` cannot be read are skipped by
the per-link `except … continue`. -/
def firstMatch (target : String) : List (Option String) → Option String
  | [] => none
  | none :: rest => firstMatch target rest
  | some href :: rest =>
    if href ≠ "" ∧ urlContainsTarget target href = true then some href
    else firstMatch target rest

/-- `GoogleSearchBot._find_and_click_target`: returns immediately when no
target is configured; otherwise a single draw against `click_probability`
decides the attempt, then the links are scanned in order.  Returns whether a
link was clicked, which link, and the draws left unconsumed. -/
def findAndClickTarget (targetWebsite : String) (clickProbability : ℚ)
    (links : List (Option String)) (draws : List ℚ) :
    Bool × Option String × List ℚ :=
  if targetWebsite = "" then (false, none, draws)
  else
    match draws with
    | [] => (false, none, [])
    | u :: rest =>
      if shouldClickTarget clickProbability u = false then (false, none, rest)
      else
        match firstMatch targetWebsite links with
        | some href => (true, some href, rest)
        | none => (false, none, rest)

/-! ### One search iteration -/

/-- The configuration fields consulted by the orchestration core
(`GSBConfig` in `gsb_selenium/core/config.py`). -/
structure GSBConfig where
  targetWebsite : String
  clickProbability : ℚ
  useProfiles : Bool
  cleanupProfiles : Bool
  searchRangeMin : Nat
  searchRangeMax : Nat
deriving DecidableEq, Repr

/-- The stage whose failure falsified a search iteration, read off from the
control flow of `run_search_session`: `search` when `_perform_search`
returned `False`, `captcha` when a detected captcha went unsolved,
`exception` when an `Exception` escaped the iteration body and was caught by
the per-iteration handler. -/
inductive FailStage where
  | search : FailStage
  | captcha : FailStage
  | exception : FailStage
deriving DecidableEq, Repr

/-- The observables of one search iteration as recorded when it ends: the
locals `success`, `target_clicked`, `captcha_solved` of
`run_search_session`, the result of `_detect_captcha`, and the stage that
falsified success (if any). -/
structure SessionOutcome where
  success : Bool
  targetClicked : Bool
  captchaEncountered : Bool
  captchaSolved : Bool
  failureStage : Option FailStage
deriving DecidableEq, Repr

/-- Resource accounting for one search iteration: whether the Chrome profile
was created by `create_driver`, whether Chrome came up, and whether
`StealthDriver.quit` ran (releasing the driver and, when the
`cleanup_profiles` toggle is on, deleting the profile via
`ChromeProfileManager.cleanup_profile`). -/
structure ResourceLog where
  profileCreated : Bool
  driverCreated : Bool
  driverQuit : Bool
  profileDeleted : Bool
deriving DecidableEq, Repr

/-- The resource log of one iteration.  `create_driver` creates the profile
(when `use_profiles` is set) before starting Chrome; if Chrome construction
raises, `__enter__` propagates and Python skips `__exit__`, so
`StealthDriver.quit` never runs and the profile is not cleaned.  If the
driver came up, the `with` block guarantees `quit` on every exit path
(normal, `Exception`, or interrupt), which releases the driver and deletes
the profile exactly when `cleanup_profiles` is set. -/
def sessionResourceLog (cfg : GSBConfig) (env : SessionEnv) : ResourceLog :=
  match env.enterExc with
  | some _ => ⟨cfg.useProfiles, false, false, false⟩
  | none => ⟨cfg.useProfiles, true, true, cfg.cleanupProfiles && cfg.useProfiles⟩

/-- The outcome of one iteration of `run_search_session`, i.e. the `try` body
with its `except Exception` handler: `.ok` carries the observables recorded
at `end_run`; `.error .interrupt` is a `KeyboardInterrupt` escaping the
handler.  Mirrors lines 83–116 of `gsb.py`: `success = _perform_search(...)`;
if successful, a detected captcha must be solved or `success` is cleared; the
target is looked up only while `success` holds and a target is configured. -/
def sessionBodyResult (cfg : GSBConfig) (env : SessionEnv) :
    Except ExcKind SessionOutcome :=
  match env.enterExc with
  | some .interrupt => .error .interrupt
  | some .error => .ok ⟨false, false, false, false, some .exception⟩
  | none =>
    match catchExc env.searchBody false with
    | .error k => .error k
    | .ok sOk =>
      if sOk then
        match detectCaptcha env with
        | .error k => .error k
        | .ok det =>
          if det then
            match solveCaptcha env with
            | .error k => .error k
            | .ok solved =>
              if solved then
                .ok ⟨true,
                     (findAndClickTarget cfg.targetWebsite cfg.clickProbability
                       env.links env.clickDraws).1,
                     true, true, none⟩
              else .ok ⟨false, false, true, false, some .captcha⟩
          else
            .ok ⟨true,
                 (findAndClickTarget cfg.targetWebsite cfg.clickProbability
                   env.links env.clickDraws).1,
                 false, false, none⟩
      else .ok ⟨false, false, false, false, some .search⟩

/-- One iteration of `run_search_session`: the recorded outcome (or the
propagating interrupt) together with the resource log. -/
def runSingleSearch (cfg : GSBConfig) (env : SessionEnv) :
    Except ExcKind SessionOutcome × ResourceLog :=
  (sessionBodyResult cfg env, sessionResourceLog cfg env)

/-- The outcome `end_run` records for an iteration that terminated normally
(under `SessionEnv.interruptFree` the body always does). -/
def sessionOutcomeOf (cfg : GSBConfig) (env : SessionEnv) : SessionOutcome :=
  match sessionBodyResult cfg env with
  | .ok oc => oc
  | .error _ => ⟨false, false, false, false, none⟩

/-! ### The search loop (`run_search_session`) -/

/-- Collaborator behavior for a whole run: one `SessionEnv` per iteration
and, after each non-final iteration, whether the inter-search `human_sleep`
is hit by an interrupt. -/
structure RunEnv where
  sessions : Nat → SessionEnv
  sleepInterrupt : Nat → Bool

/-- The loop of `run_search_session` from iteration `i` with `n` iterations
left: the first component is `.ok ()` when the loop ran to completion and
`.error .interrupt` when a `KeyboardInterrupt` escaped; the second collects
the outcomes recorded by `end_run`, in order; the third the per-iteration
resource logs.  The per-iteration `except Exception` keeps ordinary errors
from aborting the loop; the inter-search sleep runs only between
iterations. -/
def runLoop (cfg : GSBConfig) (renv : RunEnv) :
    Nat → Nat → Except ExcKind Unit × List SessionOutcome × List ResourceLog
  | _, 0 => (.ok (), [], [])
  | i, n + 1 =>
    match sessionBodyResult cfg (renv.sessions i) with
    | .error k => (.error k, [], [sessionResourceLog cfg (renv.sessions i)])
    | .ok oc =>
      if n = 0 then (.ok (), [oc], [sessionResourceLog cfg (renv.sessions i)])
      else if renv.sleepInterrupt i then
        (.error .interrupt, [oc], [sessionResourceLog cfg (renv.sessions i)])
      else
        ((runLoop cfg renv (i + 1) n).1,
         oc :: (runLoop cfg renv (i + 1) n).2.1,
         sessionResourceLog cfg (renv.sessions i) :: (runLoop cfg renv (i + 1) n).2.2)

/-- `GoogleSearchBot.run_search_session(num_searches)` with an explicit
search count. -/
def runSearchSession (cfg : GSBConfig) (renv : RunEnv) (numSearches : Nat) :
    Except ExcKind Unit × List SessionOutcome × List ResourceLog :=
  runLoop cfg renv 0 numSearches

/-- The `num_searches is None` path: the count is drawn once per call by
`random.randint(search_range_min, search_range_max)`. -/
def runSearchSessionAuto (cfg : GSBConfig) (renv : RunEnv) (r : Nat) :
    Except ExcKind Unit × List SessionOutcome × List ResourceLog :=
  runSearchSession cfg renv (randint cfg.searchRangeMin cfg.searchRangeMax r)

/-- No `KeyboardInterrupt` arrives anywhere inside the given iteration. -/
def SessionEnv.interruptFree (env : SessionEnv) : Prop :=
  env.enterExc ≠ some .interrupt ∧
  env.searchBody ≠ .error .interrupt ∧
  (∀ s, env.findCount s ≠ .error .interrupt) ∧
  (∀ d sv, env.solver = some (d, sv) →
    d ≠ Except.error ExcKind.interrupt ∧ sv ≠ Except.error ExcKind.interrupt)

/-- The same iteration environment with different result links and draws:
only the inputs of `_find_and_click_target` change. -/
def SessionEnv.withClick (env : SessionEnv) (l : List (Option String))
    (d : List ℚ) : SessionEnv :=
  ⟨env.enterExc, env.searchBody, env.findCount, env.solver, l, d⟩

/-! ### Concrete environments used by witnesses and counterexamples -/

/-- A benign iteration: the driver comes up, the search succeeds, no captcha
element is on the page, no solver is configured. -/
def envBenign : SessionEnv := ⟨none, .ok true, fun _ => .ok 0, none, [], []⟩

/-- An iteration whose driver construction (`wire_webdriver.Chrome`) raises
an ordinary `Exception` after the Chrome profile has been created. -/
def envDriverFail : SessionEnv := ⟨some .error, .ok true, fun _ => .ok 0, none, [], []⟩

/-- An iteration hit by a `KeyboardInterrupt` during `_perform_search`. -/
def envInterrupted : SessionEnv :=
  ⟨none, .error .interrupt, fun _ => .ok 0, none, [], []⟩

/-- An iteration where every captcha probe finds an element and no solver is
configured. -/
def envCaptcha : SessionEnv :=
  ⟨none, .ok true, fun _ => .ok 1, none, [some "https://example.com/a"], [0]⟩

/-- An iteration where `driver.find_elements` raises an `Exception` during
captcha detection. -/
def envDetectErr : SessionEnv :=
  ⟨none, .ok true, fun _ => .error .error, none, [some "https://example.com/a"], [0]⟩

/-- A configuration with no target website, profile use and cleanup on. -/
def cfgPlain : GSBConfig := ⟨"", 3/10, true, true, 5, 20⟩

/-- A configuration targeting `example.com` with click probability `1/2`. -/
def cfgTarget : GSBConfig := ⟨"example.com", 1/2, true, true, 5, 20⟩

/-- A run whose second iteration fails with an `Exception` raised by driver
construction; all other iterations are benign. -/
def renvOneFailure : RunEnv :=
  ⟨fun i => if i = 1 then envDriverFail else envBenign, fun _ => false⟩

/-- A run whose second iteration is interrupted mid-search. -/
def renvInterrupted : RunEnv :=
  ⟨fun i => if i = 1 then envInterrupted else envBenign, fun _ => false⟩

/-! ## Theorems -/

/-- Every bound in the hardcoded activity table is well-formed. -/
lemma getPattern_fst_le_snd (activity : String) :
    (getPattern activity).1 ≤ (getPattern activity).2 := by
  unfold getPattern
  split_ifs <;> norm_num

/-- C6: for every activity name the sampled duration stays within the
`(min, max)` bound registered for it, and unregistered activities use the
default `(1.0, 2.0)` bound; the sample never falls outside the applicable
bound. -/
theorem sample_within_applicable_bound (activity : String) (u : ℚ)
    (hu0 : 0 ≤ u) (hu1 : u ≤ 1) :
    ((getPattern activity).1 ≤ waitForDuration activity u ∧
      waitForDuration activity u ≤ (getPattern activity).2) ∧
    (activity ∉ registeredActivities → getPattern activity = (1, 2)) := by
  constructor
  · have hle := getPattern_fst_le_snd activity
    unfold waitForDuration humanSleepDuration
    constructor
    · nlinarith
    · nlinarith
  · intro h
    simp only [registeredActivities, List.mem_cons, List.mem_singleton,
      not_or] at h
    obtain ⟨e1, e2, e3, e4, e5, e6⟩ := h
    simp [getPattern, e1, e2, e3, e4, e5, e6]

/-- Witness for C6 at the registered activity `page_load` and `u = 1/2`. -/
theorem sample_within_applicable_bound_wit :
    (getPattern "page_load").1 ≤ waitForDuration "page_load" (1/2) ∧
      waitForDuration "page_load" (1/2) ≤ (getPattern "page_load").2 :=
  (sample_within_applicable_bound "page_load" (1/2) (by norm_num) (by norm_num)).1

/-- C9: sampling an activity whose registered bound has `min == max` returns
exactly that value, for any unit draw — the zero-width range is a fixed
delay, with no error. -/
theorem sample_degenerate_bound_exact (patterns : List (String × ℚ × ℚ))
    (activity : String) (u m : ℚ)
    (h : List.lookup activity patterns = some (m, m)) :
    samplePattern patterns activity u = m := by
  unfold samplePattern
  rw [h]
  unfold humanSleepDuration
  ring

/-- Witness for C9: a table registering the zero-width bound `(5, 5)`. -/
theorem sample_degenerate_bound_exact_wit :
    samplePattern [("fixed", 5, 5)] "fixed" (1/3) = 5 :=
  sample_degenerate_bound_exact _ _ _ _ (by decide)

/-- C3 counterexample: with the previous identity carrying the catalog's
first user agent and the fresh draw selecting index `0` again, the next
identity repeats the previous fingerprint even though the catalog has more
than one entry — the source never consults the previous selection. -/
theorem fingerprint_repeat_possible :
    1 < userAgents.length ∧
    nextFingerprint (some (nextFingerprint none 0)) 0 = nextFingerprint none 0 :=
  ⟨by decide, rfl⟩

/-- C3 amended: the fingerprint returned for a session is an independent
uniform draw from the catalog — always a member of `userAgents`, and
entirely independent of the previous identity (so it may repeat it). -/
theorem fingerprint_fresh_uniform_member (prev prev2 : Option String) (r : Nat) :
    nextFingerprint prev r ∈ userAgents ∧
    nextFingerprint prev r = nextFingerprint prev2 r := by
  constructor
  · unfold nextFingerprint randomChoice
    have h : r % userAgents.length < userAgents.length :=
      Nat.mod_lt _ (by decide)
    rw [List.getD_eq_getElem _ _ h]
    exact List.getElem_mem h
  · rfl

/-- C8: `proxy_string` session tokens are drawn from the closed range
`[606150694, 606250693]`: every draw lands in the range, every value of the
range is reachable, each token of a run is a function of its own fresh draw
alone (no dependence on earlier tokens, hence no incremental sequence), and
the token is what `proxy_string` splices into the proxy URL. -/
theorem session_token_uniform_independent :
    (∀ r, 606150694 ≤ sessionToken r ∧ sessionToken r ≤ 606250693) ∧
    (∀ n, 606150694 ≤ n → n ≤ 606250693 → ∃ r, sessionToken r = n) ∧
    (∀ s t : Nat → Nat, ∀ i, s i = t i →
      sessionTokenStream s i = sessionTokenStream t i) ∧
    (∀ r, proxyString r =
      "https://customer-nivos_qR24w-cc-us-sessid-" ++ toString (sessionToken r) ++
        "-sesstime-10:Niv220niv220_@pr.oxylabs.io:7777") := by
  refine ⟨fun r => ?_, fun n h1 h2 => ?_, fun s t i h => ?_, fun _ => rfl⟩
  · unfold sessionToken randint
    omega
  · refine ⟨n - 606150694, ?_⟩
    unfold sessionToken randint
    omega
  · simp [sessionTokenStream, h]

/-- Witness for C8 at draw `7` and range value `606200000`. -/
theorem session_token_uniform_independent_wit :
    (606150694 ≤ sessionToken 7 ∧ sessionToken 7 ≤ 606250693) ∧
    (∃ r, sessionToken r = 606200000) :=
  ⟨session_token_uniform_independent.1 7,
   session_token_uniform_independent.2.1 606200000 (by norm_num) (by norm_num)⟩

/-! ### Helper lemmas about the exception model -/

/-- `except Exception` leaves a non-interrupted body with a boolean result. -/
lemma catchExc_ok (body : Except ExcKind Bool) (fb : Bool)
    (h : body ≠ .error .interrupt) : ∃ b, catchExc body fb = .ok b := by
  cases body with
  | ok b => exact ⟨b, rfl⟩
  | error k =>
    cases k with
    | error => exact ⟨fb, rfl⟩
    | interrupt => exact absurd rfl h

/-- `except Exception` can only let interrupts through. -/
lemma catchExc_error (body : Except ExcKind Bool) (fb : Bool) (k : ExcKind)
    (h : catchExc body fb = .error k) :
    body = .error .interrupt ∧ k = .interrupt := by
  cases body with
  | ok b => simp [catchExc] at h
  | error k2 =>
    cases k2 with
    | error => simp [catchExc] at h
    | interrupt =>
      refine ⟨rfl, ?_⟩
      have : (Except.error ExcKind.interrupt : Except ExcKind Bool) = .error k := h
      cases this
      rfl

/-- The selector probe loop raises no interrupt when the driver does not. -/
lemma detectLoop_no_interrupt (find : String → Except ExcKind Nat)
    (hf : ∀ s, find s ≠ .error .interrupt) (l : List String) :
    detectLoop find l ≠ .error .interrupt := by
  induction l with
  | nil => simp [detectLoop]
  | cons s rest ih =>
    unfold detectLoop
    cases hfs : find s with
    | error k =>
      cases k with
      | error => simp
      | interrupt => exact absurd hfs (hf s)
    | ok n =>
      by_cases hn : 0 < n
      · simp [hn]
      · simpa [hn] using ih

/-- The body of `_detect_captcha` raises no interrupt in an interrupt-free
iteration. -/
lemma detectBody_no_interrupt (env : SessionEnv) (henv : env.interruptFree) :
    detectBody env ≠ .error .interrupt := by
  unfold detectBody
  cases hs : env.solver with
  | none => exact detectLoop_no_interrupt env.findCount henv.2.2.1 _
  | some sv =>
    obtain ⟨d, s2⟩ := sv
    have h := (henv.2.2.2 d s2 hs).1
    intro hc
    exact h (catchExc_error _ _ _ hc).1

/-- `_detect_captcha` terminates with a boolean in an interrupt-free
iteration. -/
lemma detectCaptcha_ok (env : SessionEnv) (henv : env.interruptFree) :
    ∃ b, detectCaptcha env = .ok b :=
  catchExc_ok _ _ (detectBody_no_interrupt env henv)

/-- `_solve_captcha` terminates with a boolean in an interrupt-free
iteration. -/
lemma solveCaptcha_ok (env : SessionEnv) (henv : env.interruptFree) :
    ∃ b, solveCaptcha env = .ok b := by
  unfold solveCaptcha
  cases hs : env.solver with
  | none => exact ⟨false, rfl⟩
  | some sv =>
    obtain ⟨d, s2⟩ := sv
    have h := (henv.2.2.2 d s2 hs).2
    apply catchExc_ok
    intro hc
    exact h (catchExc_error _ _ _ hc).1

/-- An interrupt-free iteration always ends with a recorded outcome: the
per-iteration `except Exception` handler keeps every ordinary error inside
the iteration. -/
lemma sessionBodyResult_ok (cfg : GSBConfig) (env : SessionEnv)
    (henv : env.interruptFree) :
    ∃ oc, sessionBodyResult cfg env = .ok oc := by
  obtain ⟨sb, hsb⟩ := catchExc_ok env.searchBody false henv.2.1
  obtain ⟨det, hdet⟩ := detectCaptcha_ok env henv
  obtain ⟨sol, hsol⟩ := solveCaptcha_ok env henv
  unfold sessionBodyResult
  cases he : env.enterExc with
  | some k =>
    cases k with
    | interrupt => exact absurd he henv.1
    | error => exact ⟨_, rfl⟩
  | none =>
    rw [hsb]
    cases sb with
    | false => exact ⟨_, rfl⟩
    | true =>
      simp only [if_true]
      rw [hdet]
      cases det with
      | false => exact ⟨_, rfl⟩
      | true =>
        simp only [if_true]
        rw [hsol]
        cases sol with
        | false => exact ⟨_, rfl⟩
        | true => exact ⟨_, rfl⟩

/-- When every scheduled iteration is interrupt-free, the loop starting at
`start` runs all `n` iterations, records exactly one outcome each (the
outcome of that iteration alone), and terminates normally. -/
lemma runLoop_ok (cfg : GSBConfig) (renv : RunEnv) :
    ∀ (n start : Nat),
      (∀ j, j < n → (renv.sessions (start + j)).interruptFree) →
      (∀ j, j + 1 < n → renv.sleepInterrupt (start + j) = false) →
      (runLoop cfg renv start n).1 = .ok () ∧
      (runLoop cfg renv start n).2.1.length = n ∧
      (∀ j, j < n → (runLoop cfg renv start n).2.1[j]? =
        some (sessionOutcomeOf cfg (renv.sessions (start + j)))) := by
  intro n
  induction n with
  | zero =>
    intro start _ _
    exact ⟨rfl, rfl, fun j hj => absurd hj (by omega)⟩
  | succ m ih =>
    intro start hfree hsleep
    have h0 : (renv.sessions start).interruptFree := by
      simpa using hfree 0 (by omega)
    obtain ⟨oc, hoc⟩ := sessionBodyResult_ok cfg (renv.sessions start) h0
    have hout : sessionOutcomeOf cfg (renv.sessions start) = oc := by
      unfold sessionOutcomeOf
      rw [hoc]
    unfold runLoop
    simp only [hoc]
    by_cases hm : m = 0
    · subst hm
      refine ⟨rfl, rfl, fun j hj => ?_⟩
      have hj0 : j = 0 := by omega
      subst hj0
      simpa using hout.symm
    · have hs0 : renv.sleepInterrupt start = false := by
        simpa using hsleep 0 (by omega)
      rw [if_neg hm, hs0]
      simp only [Bool.false_eq_true, if_false]
      have hrest := ih (start + 1)
        (fun j hj => by
          have := hfree (j + 1) (by omega)
          rwa [show start + (j + 1) = start + 1 + j by omega] at this)
        (fun j hj => by
          have := hsleep (j + 1) (by omega)
          rwa [show start + (j + 1) = start + 1 + j by omega] at this)
      refine ⟨hrest.1, by simpa using hrest.2.1, fun j hj => ?_⟩
      cases j with
      | zero => simpa using hout.symm
      | succ jj =>
        have := hrest.2.2 jj (by omega)
        simpa [show start + 1 + jj = start + (jj + 1) by omega] using this

/-- C1: a run with an explicit session count, where no external interrupt
arrives, always terminates normally with exactly one recorded outcome per
executed iteration; an `Exception` raised inside a single iteration (here:
by driver construction) is recorded as that iteration's failed outcome and
the remaining iterations still execute — no exception reaches the caller. -/
theorem run_completes_with_outcome_per_session (cfg : GSBConfig)
    (renv : RunEnv) (n : Nat)
    (hfree : ∀ i, i < n → (renv.sessions i).interruptFree)
    (hsleep : ∀ i, i + 1 < n → renv.sleepInterrupt i = false) :
    (runSearchSession cfg renv n).1 = .ok () ∧
    (runSearchSession cfg renv n).2.1.length = n ∧
    (∀ i, i < n → (runSearchSession cfg renv n).2.1[i]? =
      some (sessionOutcomeOf cfg (renv.sessions i))) ∧
    (∀ i, i < n → (renv.sessions i).enterExc = some ExcKind.error →
      (sessionOutcomeOf cfg (renv.sessions i)).success = false) := by
  have h := runLoop_ok cfg renv n 0 (fun j hj => by simpa using hfree j hj)
    (fun j hj => by simpa using hsleep j hj)
  unfold runSearchSession
  refine ⟨h.1, h.2.1, fun i hi => by simpa using h.2.2 i hi, fun i hi he => ?_⟩
  unfold sessionOutcomeOf sessionBodyResult
  rw [he]

/-- Witness for C1: a three-iteration run whose second iteration raises an
`Exception` still yields three outcomes and terminates normally. -/
theorem run_completes_with_outcome_per_session_wit :
    (runSearchSession cfgPlain renvOneFailure 3).1 = .ok () ∧
    (runSearchSession cfgPlain renvOneFailure 3).2.1.length = 3 := by
  have hfree : ∀ i, i < 3 → (renvOneFailure.sessions i).interruptFree := by
    intro i _
    by_cases h : i = 1 <;>
      simp [renvOneFailure, h, SessionEnv.interruptFree, envBenign, envDriverFail]
  have hsleep : ∀ i, i + 1 < 3 → renvOneFailure.sleepInterrupt i = false := by
    intro i _
    simp [renvOneFailure]
  have h := run_completes_with_outcome_per_session cfgPlain renvOneFailure 3
    hfree hsleep
  exact ⟨h.1, h.2.1⟩

/-- An iteration that reaches a detected captcha with no solver configured
ends failed at the captcha stage. -/
lemma sessionBody_captcha_unsolved (cfg : GSBConfig) (env : SessionEnv)
    (henter : env.enterExc = none) (hsolver : env.solver = none)
    (hsearch : catchExc env.searchBody false = .ok true)
    (hdetect : detectLoop env.findCount captchaSelectors = .ok true) :
    sessionBodyResult cfg env =
      .ok ⟨false, false, true, false, some FailStage.captcha⟩ := by
  have hdc : detectCaptcha env = .ok true := by
    unfold detectCaptcha detectBody
    rw [hsolver, hdetect]
    rfl
  have hsc : solveCaptcha env = .ok false := by
    unfold solveCaptcha
    rw [hsolver]
  unfold sessionBodyResult
  rw [henter]
  simp only [hsearch, hdc, hsc, if_true, if_false]
  rfl

/-- C2: when a captcha is detected and no solver collaborator is configured,
the iteration ends with `success = false`, the captcha stage recorded as the
failure stage, `captcha_encountered = true` and `captcha_solved = false`;
the target-click stage is never attempted — the outcome is the same under
arbitrary result links and draws. -/
theorem captcha_without_solver_fails_session (cfg : GSBConfig)
    (env : SessionEnv)
    (henter : env.enterExc = none) (hsolver : env.solver = none)
    (hsearch : catchExc env.searchBody false = .ok true)
    (hdetect : detectLoop env.findCount captchaSelectors = .ok true) :
    sessionBodyResult cfg env =
      .ok ⟨false, false, true, false, some FailStage.captcha⟩ ∧
    ∀ l d, sessionBodyResult cfg (env.withClick l d) =
      .ok ⟨false, false, true, false, some FailStage.captcha⟩ :=
  ⟨sessionBody_captcha_unsolved cfg env henter hsolver hsearch hdetect,
   fun l d => sessionBody_captcha_unsolved cfg (env.withClick l d)
     henter hsolver hsearch hdetect⟩

/-- Witness for C2: a page where every captcha probe finds an element and no
solver is configured. -/
theorem captcha_without_solver_fails_session_wit :
    sessionBodyResult cfgPlain envCaptcha =
      .ok ⟨false, false, true, false, some FailStage.captcha⟩ :=
  (captcha_without_solver_fails_session cfgPlain envCaptcha rfl rfl rfl rfl).1

/-- C10: `_detect_captcha` is total at the session level — its
`except Exception` maps any ordinary error from the driver or the solver to
`False` (reported as no captcha), a non-interrupted detection always returns
a boolean, and a failing detection step makes the iteration proceed exactly
as if no captcha existed. -/
theorem detect_error_reports_no_captcha (cfg : GSBConfig) (env : SessionEnv)
    (henter : env.enterExc = none)
    (hsearch : catchExc env.searchBody false = .ok true)
    (hbody : detectBody env = .error ExcKind.error) :
    detectCaptcha env = .ok false ∧
    (∀ env2 : SessionEnv, detectBody env2 ≠ .error ExcKind.interrupt →
      ∃ b, detectCaptcha env2 = .ok b) ∧
    sessionBodyResult cfg env =
      .ok ⟨true,
           (findAndClickTarget cfg.targetWebsite cfg.clickProbability env.links
             env.clickDraws).1,
           false, false, none⟩ := by
  have hdc : detectCaptcha env = .ok false := by
    unfold detectCaptcha
    rw [hbody]
    rfl
  refine ⟨hdc, fun env2 h2 => catchExc_ok _ _ h2, ?_⟩
  unfold sessionBodyResult
  rw [henter]
  simp only [hsearch, hdc, if_true, if_false]
  rfl

/-- Witness for C10: the driver raises on every `find_elements` call during
detection; the session still proceeds to the target stage. -/
theorem detect_error_reports_no_captcha_wit :
    detectCaptcha envDetectErr = .ok false ∧
    sessionBodyResult cfgTarget envDetectErr =
      .ok ⟨true,
           (findAndClickTarget cfgTarget.targetWebsite cfgTarget.clickProbability
             envDetectErr.links envDetectErr.clickDraws).1,
           false, false, none⟩ :=
  ⟨(detect_error_reports_no_captcha cfgTarget envDetectErr rfl rfl rfl).1,
   (detect_error_reports_no_captcha cfgTarget envDetectErr rfl rfl rfl).2.2⟩

/-- C5 amended: whenever the driver comes up, every exit path of the
iteration body (normal, `Exception`, interrupt) runs `StealthDriver.quit`:
the driver is released and the profile created for the session is deleted
exactly when the `cleanup_profiles` toggle is on (when off, the profile is
kept but the driver is still released).  When driver construction itself
raises after the profile is created, `__exit__` is skipped — see the
counterexample. -/
theorem session_releases_driver_and_profile (cfg : GSBConfig)
    (env : SessionEnv) (henter : env.enterExc = none) :
    (runSingleSearch cfg env).2.driverCreated = true ∧
    (runSingleSearch cfg env).2.driverQuit = true ∧
    (runSingleSearch cfg env).2.profileCreated = cfg.useProfiles ∧
    (runSingleSearch cfg env).2.profileDeleted =
      (cfg.cleanupProfiles && cfg.useProfiles) := by
  unfold runSingleSearch sessionResourceLog
  rw [henter]
  exact ⟨rfl, rfl, rfl, rfl⟩

/-- Witness for C5 at a benign iteration. -/
theorem session_releases_driver_and_profile_wit :
    (runSingleSearch cfgTarget envBenign).2.driverCreated = true ∧
    (runSingleSearch cfgTarget envBenign).2.driverQuit = true ∧
    (runSingleSearch cfgTarget envBenign).2.profileCreated =
      cfgTarget.useProfiles ∧
    (runSingleSearch cfgTarget envBenign).2.profileDeleted =
      (cfgTarget.cleanupProfiles && cfgTarget.useProfiles) :=
  session_releases_driver_and_profile cfgTarget envBenign rfl

/-- C5 counterexample: with profiles and cleanup enabled, an `Exception`
raised by driver construction ends the iteration through the per-iteration
handler (a recorded failed outcome), yet the Chrome profile created first in
`create_driver` is never deleted: `__enter__` raised, so Python skips
`__exit__` and `StealthDriver.quit` never runs. -/
theorem driver_failure_leaks_profile :
    cfgPlain.useProfiles = true ∧ cfgPlain.cleanupProfiles = true ∧
    (runSingleSearch cfgPlain envDriverFail).1 =
      .ok ⟨false, false, false, false, some FailStage.exception⟩ ∧
    (runSingleSearch cfgPlain envDriverFail).2.profileCreated = true ∧
    (runSingleSearch cfgPlain envDriverFail).2.driverQuit = false ∧
    (runSingleSearch cfgPlain envDriverFail).2.profileDeleted = false :=
  ⟨rfl, rfl, rfl, rfl, rfl, rfl⟩

/-- An interrupt during iteration `start + i`, after `i` clean iterations,
propagates out of the loop: outcomes are recorded only for the completed
iterations, while the interrupted iteration still contributes its resource
log (its `with` block ran the cleanup before the interrupt escaped). -/
lemma runLoop_interrupted (cfg : GSBConfig) (renv : RunEnv) :
    ∀ (i n start : Nat), i < n →
      (∀ j, j < i → (renv.sessions (start + j)).interruptFree) →
      (∀ j, j < i → renv.sleepInterrupt (start + j) = false) →
      sessionBodyResult cfg (renv.sessions (start + i)) =
        .error ExcKind.interrupt →
      (runLoop cfg renv start n).1 = .error ExcKind.interrupt ∧
      (runLoop cfg renv start n).2.1.length = i ∧
      (runLoop cfg renv start n).2.2.length = i + 1 := by
  intro i
  induction i with
  | zero =>
    intro n start hn _ _ hint
    obtain ⟨m, rfl⟩ : ∃ m, n = m + 1 := ⟨n - 1, by omega⟩
    rw [show start + 0 = start from rfl] at hint
    unfold runLoop
    simp [hint]
  | succ ii ih =>
    intro n start hn hfree hsleep hint
    obtain ⟨m, rfl⟩ : ∃ m, n = m + 1 := ⟨n - 1, by omega⟩
    have h0 : (renv.sessions start).interruptFree := by
      simpa using hfree 0 (by omega)
    obtain ⟨oc, hoc⟩ := sessionBodyResult_ok cfg (renv.sessions start) h0
    have hm : ¬ m = 0 := by omega
    have hs0 : renv.sleepInterrupt start = false := by
      simpa using hsleep 0 (by omega)
    unfold runLoop
    simp only [hoc]
    rw [if_neg hm, hs0]
    simp only [Bool.false_eq_true, if_false]
    have hrest := ih (m) (start + 1) (by omega)
      (fun j hj => by
        have := hfree (j + 1) (by omega)
        rwa [show start + (j + 1) = start + 1 + j by omega] at this)
      (fun j hj => by
        have := hsleep (j + 1) (by omega)
        rwa [show start + (j + 1) = start + 1 + j by omega] at this)
      (by
        have := hint
        rwa [show start + (ii + 1) = start + 1 + ii by omega] at this)
    exact ⟨hrest.1, by simpa using hrest.2.1, by simpa using hrest.2.2⟩

/-- C4 amended: a `KeyboardInterrupt` during an iteration stops the run
immediately, but not as the spec claims: the interrupt escapes
`run_search_session` (the CLI catches it and exits), the in-flight iteration
produces no outcome at all (nothing is marked cancelled — `except Exception`
does not catch `KeyboardInterrupt`), only the previously completed
iterations have recorded outcomes, and the in-flight iteration still runs
its `with`-block cleanup (one extra resource log). -/
theorem cancellation_aborts_without_cancelled_outcome (cfg : GSBConfig)
    (renv : RunEnv) (n i : Nat) (hi : i < n)
    (hfree : ∀ j, j < i → (renv.sessions j).interruptFree)
    (hsleep : ∀ j, j < i → renv.sleepInterrupt j = false)
    (hint : sessionBodyResult cfg (renv.sessions i) =
      .error ExcKind.interrupt) :
    (runSearchSession cfg renv n).1 = .error ExcKind.interrupt ∧
    (runSearchSession cfg renv n).2.1.length = i ∧
    (runSearchSession cfg renv n).2.2.length = i + 1 := by
  unfold runSearchSession
  exact runLoop_interrupted cfg renv i n 0 hi
    (fun j hj => by simpa using hfree j hj)
    (fun j hj => by simpa using hsleep j hj)
    (by simpa using hint)

/-- Witness for the amended C4: interrupt in iteration `1` of a run of `5`. -/
theorem cancellation_aborts_without_cancelled_outcome_wit :
    (runSearchSession cfgPlain renvInterrupted 5).2.1.length = 1 ∧
    (runSearchSession cfgPlain renvInterrupted 5).2.2.length = 2 := by
  have h := cancellation_aborts_without_cancelled_outcome cfgPlain
    renvInterrupted 5 1 (by omega)
    (fun j hj => by
      have hj0 : j = 0 := by omega
      subst hj0
      simp [renvInterrupted, envBenign, SessionEnv.interruptFree])
    (fun j hj => by simp [renvInterrupted])
    rfl
  exact ⟨h.2.1, h.2.2⟩

/-- C4 counterexample: cancellation during the second iteration of a
five-iteration run yields no cancelled outcome for that iteration and no
normally returned summary: the interrupt propagates out, and exactly one
outcome (the completed first iteration) was recorded — not the two entries
the claim requires. -/
theorem cancellation_drops_inflight_outcome :
    (runSearchSession cfgPlain renvInterrupted 5).1 =
      .error ExcKind.interrupt ∧
    (runSearchSession cfgPlain renvInterrupted 5).2.1.length = 1 ∧
    (runSearchSession cfgPlain renvInterrupted 5).2.1.length ≠ 2 :=
  ⟨rfl, rfl, fun h => by
    rw [show (runSearchSession cfgPlain renvInterrupted 5).2.1.length = 1
      from rfl] at h
    exact absurd h (by decide)⟩

/-- Changing only the click inputs leaves the stages before the click
unchanged. -/
lemma withClick_enterExc (env : SessionEnv) (l : List (Option String))
    (d : List ℚ) : (env.withClick l d).enterExc = env.enterExc := rfl

/-- Changing only the click inputs leaves the search stage unchanged. -/
lemma withClick_searchBody (env : SessionEnv) (l : List (Option String))
    (d : List ℚ) : (env.withClick l d).searchBody = env.searchBody := rfl

/-- Captcha detection never reads the click inputs. -/
lemma detectCaptcha_withClick (env : SessionEnv) (l : List (Option String))
    (d : List ℚ) : detectCaptcha (env.withClick l d) = detectCaptcha env := rfl

/-- Captcha solving never reads the click inputs. -/
lemma solveCaptcha_withClick (env : SessionEnv) (l : List (Option String))
    (d : List ℚ) : solveCaptcha (env.withClick l d) = solveCaptcha env := rfl

/-- The success of an iteration never depends on the result links or the
click draws: the click stage runs strictly after `success` is settled and
only fills `target_clicked`. -/
lemma sessionBody_success_indep (cfg : GSBConfig) (env : SessionEnv)
    (l1 l2 : List (Option String)) (d1 d2 : List ℚ) :
    (sessionBodyResult cfg (env.withClick l1 d1)).map SessionOutcome.success =
      (sessionBodyResult cfg (env.withClick l2 d2)).map SessionOutcome.success := by
  unfold sessionBodyResult
  simp only [withClick_enterExc, withClick_searchBody, detectCaptcha_withClick,
    solveCaptcha_withClick]
  cases he : env.enterExc with
  | some k => cases k <;> rfl
  | none =>
    cases hsb : catchExc env.searchBody false with
    | error k => rfl
    | ok b =>
      cases b with
      | false => rfl
      | true =>
        cases hd : detectCaptcha env with
        | error k => rfl
        | ok db =>
          cases db with
          | false => rfl
          | true =>
            cases hs2 : solveCaptcha env with
            | error k => rfl
            | ok s2 => cases s2 <;> rfl

/-- The first matched link satisfies the match predicate and lies among the
candidates. -/
lemma firstMatch_spec (t : String) :
    ∀ (links : List (Option String)) (href : String),
      firstMatch t links = some href →
      href ≠ "" ∧ urlContainsTarget t href = true ∧ some href ∈ links := by
  intro links
  induction links with
  | nil =>
    intro href h
    simp [firstMatch] at h
  | cons hd rest ih =>
    intro href h
    cases hd with
    | none =>
      have := ih href (by simpa [firstMatch] using h)
      exact ⟨this.1, this.2.1, List.mem_cons_of_mem _ this.2.2⟩
    | some s =>
      simp only [firstMatch] at h
      split at h
      next hc =>
        cases h
        exact ⟨hc.1, hc.2, List.mem_cons_self _ _⟩
      next hc =>
        have := ih href h
        exact ⟨this.1, this.2.1, List.mem_cons_of_mem _ this.2.2⟩

/-- C7: with a target configured, exactly one probability draw is consumed
per attempt (the decision is never re-rolled: whatever the links or the
outcome, only the head of the stream is used); when the draw passes, the
clicked link is the first candidate, in displayed order, whose URL contains
the target case-insensitively; with no matching candidate nothing is
clicked; and the session's success never depends on the links or draws. -/
theorem target_click_single_draw_first_match (t : String) (p : ℚ)
    (links : List (Option String)) (u : ℚ) (rest : List ℚ) (ht : t ≠ "") :
    (findAndClickTarget t p links (u :: rest)).2.2 = rest ∧
    (shouldClickTarget p u = true →
      (findAndClickTarget t p links (u :: rest)).2.1 = firstMatch t links ∧
      ((findAndClickTarget t p links (u :: rest)).1 = true ↔
        (firstMatch t links).isSome = true)) ∧
    (firstMatch t links = none →
      (findAndClickTarget t p links (u :: rest)).1 = false) ∧
    (∀ href, firstMatch t links = some href →
      href ≠ "" ∧ urlContainsTarget t href = true ∧ some href ∈ links) ∧
    (∀ (cfg : GSBConfig) (env : SessionEnv) l1 l2 d1 d2,
      (sessionBodyResult cfg (env.withClick l1 d1)).map SessionOutcome.success =
        (sessionBodyResult cfg (env.withClick l2 d2)).map SessionOutcome.success) := by
  refine ⟨?_, ?_, ?_, firstMatch_spec t links,
    fun cfg env l1 l2 d1 d2 => sessionBody_success_indep cfg env l1 l2 d1 d2⟩
  · simp only [findAndClickTarget, if_neg ht]
    by_cases hdr : shouldClickTarget p u = false
    · rw [if_pos hdr]
    · rw [if_neg hdr]
      cases hfm : firstMatch t links <;> simp [hfm]
  · intro hsc
    have hdr : ¬ shouldClickTarget p u = false := by simp [hsc]
    simp only [findAndClickTarget, if_neg ht, if_neg hdr]
    cases hfm : firstMatch t links with
    | none => simp [hfm]
    | some href => simp [hfm]
  · intro hfm
    simp only [findAndClickTarget, if_neg ht]
    by_cases hdr : shouldClickTarget p u = false
    · rw [if_pos hdr]
    · rw [if_neg hdr]
      simp [hfm]

/-- Witness for C7: target `example.com`, a passing draw `1/4 < 1/2`, and a
single case-insensitively matching candidate. -/
theorem target_click_single_draw_first_match_wit :
    (findAndClickTarget "example.com" (1/2)
      [some "https://Example.COM/a"] ((1/4) :: [])).2.2 = [] :=
  (target_click_single_draw_first_match "example.com" (1/2)
    [some "https://Example.COM/a"] (1/4) [] (by decide)).1

end GSB
